import Mathlib

/-!
Verification of the Evil-Droid APK generator (`generate_apk.py`).

The source is a single Python file implementing a fallback-cascade pipeline:
bytecode acquisition → resource compilation → archive assembly → signing →
alignment.  External tools (smali, apktool, javac, d8, dx, aapt, keytool,
jarsigner, zipalign) are modelled by an explicit environment `Env` describing
each tool's availability and outcome; files are modelled by the byte lists /
archives they hold.  Every definition below is translated from the source
function named in its doc comment.
-/

/-- A byte is a `Nat`; byte strings are lists of `Nat`. -/
abbrev Bytes := List Nat

/-- A member of a zip archive: binary data (`zf.write` from a file /
`zf.writestr` with bytes) or text (`zf.writestr` with a Python `str`). -/
inductive Entry where
  | bin : Bytes → Entry
  | txt : String → Entry
deriving DecidableEq, Repr

/-- A zip archive is its ordered list of (member name, member data) pairs. -/
abbrev Archive := List (String × Entry)

/-- The little-endian 4-byte encoding used by `checksum.to_bytes(4, 'little')`. -/
def toLE4 (n : Nat) : Bytes :=
  [n % 256, n / 256 % 256, n / 65536 % 256, n / 16777216 % 256]

/-- Reads a 4-byte little-endian value (the stored checksum field). -/
def fromLE4 : Bytes → Nat
  | b0 :: b1 :: b2 :: b3 :: _ => b0 + 256 * b1 + 65536 * b2 + 16777216 * b3
  | _ => 0

/-- One step of the Adler-32 rolling checksum: `a := (a + byte) % 65521`,
`b := (b + a) % 65521`. -/
def adler32Step (ab : Nat × Nat) (byte : Nat) : Nat × Nat :=
  let a := (ab.1 + byte) % 65521
  (a, (ab.2 + a) % 65521)

/-- `zlib.adler32(data) & 0xffffffff`: fold the rolling checksum over the data
starting from `(a, b) = (1, 0)` and return `b * 2^16 + a`. -/
def adler32 (data : Bytes) : Nat :=
  let ab := data.foldl adler32Step (1, 0)
  (ab.2 * 65536 + ab.1) % 4294967296

/-- The 112-byte header laid out by `_write_minimal_dex_placeholder` before the
checksum is filled in: magic `dex\n035\0`, zero checksum, zero SHA-1 field,
file size 0x70, header size 0x70, endian tag 0x12345678 (little-endian bytes
`78 56 34 12`), and all section size/offset fields zero. -/
def dexDataInit : Bytes :=
  [0x64, 0x65, 0x78, 0x0a, 0x30, 0x33, 0x35, 0x00]
    ++ List.replicate 4 0        -- checksum, calculated below
    ++ List.replicate 20 0       -- SHA-1 signature placeholder
    ++ [0x70, 0x00, 0x00, 0x00]  -- file size: 112
    ++ [0x70, 0x00, 0x00, 0x00]  -- header size: 112
    ++ [0x78, 0x56, 0x34, 0x12]  -- endian tag
    ++ List.replicate 68 0       -- link/map/string/type/proto/field/method/class/data

/-- `_write_minimal_dex_placeholder`: the placeholder DEX bytes, with the
Adler-32 of everything after the checksum field written little-endian into
bytes 8..11 (`dex_data[8:12] = checksum.to_bytes(4, 'little')`). -/
def dexPlaceholder : Bytes :=
  dexDataInit.take 8 ++ toLE4 (adler32 (dexDataInit.drop 12)) ++ dexDataInit.drop 12

/-- Provenance of a bytecode artifact: which fallback strategy produced it. -/
inductive Strategy where
  | compile
  | assemble
  | externallyBuilt
  | placeholder
deriving DecidableEq, Repr

/-- The behaviour of the external toolchain during one run.  Each field models
one tool's availability and the outcome of invoking it (`none` = the binary is
not on the search path, or the jar / platform archive is absent, or the call
raised — all the cases the source treats identically by falling through). -/
structure Env where
  /-- `shutil.which('smali')`: when available, the dex file left on disk after
  the `assemble` invocation and, if that is absent, after the `a` invocation. -/
  smali : Option (Option Bytes × Option Bytes)
  /-- apktool.jar probe: when found, the member list of `built.apk` if the
  `java -jar apktool.jar b` invocation produced it, else `none`. -/
  apktool : Option (Option (List (String × Bytes)))
  /-- whether `_find_android_jar` finds a platform `android.jar`. -/
  androidJarFound : Bool
  /-- whether `javac` is on the path and exits 0 within the timeout. -/
  javacOk : Bool
  /-- `shutil.which('d8')`: when available, the `classes.dex` its run leaves. -/
  d8 : Option (Option Bytes)
  /-- `shutil.which('dx')`: when available, the `classes.dex` its run leaves. -/
  dx : Option (Option Bytes)
  /-- the member list of `resources.apk` if the `aapt package` invocation
  produced it (`none` = aapt missing, raised, or left no output). -/
  aaptOut : Option (List (String × Bytes))
  /-- whether `keytool -genkey` runs and exits 0 within the timeout. -/
  keytoolOk : Bool
  /-- jarsigner: when available, its exit code and its in-place rewrite of the
  archive being signed. -/
  jarsigner : Option (Int × (Archive → Archive))
  /-- zipalign: when available, its exit code and, if it wrote the output
  file, the content written as a function of the input archive. -/
  zipalign : Option (Int × Option (Archive → Archive))

/-- `_compile_java_to_dex`: needs `android.jar`, then `javac`, then one of
`d8` / `dx` leaving a `classes.dex`.  Any failure returns `none`.  (In the
source this method is defined but never called by `generate`.) -/
def compileJavaToDex (env : Env) : Option Bytes :=
  if env.androidJarFound then
    if env.javacOk then
      match env.d8 with
      | some (some b) => some b
      | _ =>
        match env.dx with
        | some (some b) => some b
        | _ => none
    else none
  else none

/-- `_create_prebuilt_dex`: probe for `apktool.jar`; if found, build a minimal
project and extract `classes.dex` from the built archive; otherwise (or if the
build left no archive, or the archive has no `classes.dex` member) write the
minimal placeholder.  Returns the strategies attempted, the provenance of the
result, and the dex bytes. -/
def createPrebuiltDex (env : Env) : List Strategy × Strategy × Bytes :=
  match env.apktool with
  | some (some members) =>
    match members.lookup "classes.dex" with
    | some b => ([Strategy.externallyBuilt], Strategy.externallyBuilt, b)
    | none =>
      ([Strategy.externallyBuilt, Strategy.placeholder], Strategy.placeholder, dexPlaceholder)
  | some none =>
      ([Strategy.externallyBuilt, Strategy.placeholder], Strategy.placeholder, dexPlaceholder)
  | none =>
      ([Strategy.externallyBuilt, Strategy.placeholder], Strategy.placeholder, dexPlaceholder)

/-- `_create_minimal_dex`: render the smali source, and if the `smali`
assembler is on the path try `smali assemble`, then `smali a`, returning the
dex file as soon as one invocation leaves it on disk; otherwise fall through
to `_create_prebuilt_dex`. -/
def createMinimalDex (env : Env) : List Strategy × Strategy × Bytes :=
  match env.smali with
  | some (some b, _) => ([Strategy.assemble], Strategy.assemble, b)
  | some (none, some b) => ([Strategy.assemble], Strategy.assemble, b)
  | some (none, none) =>
    let r := createPrebuiltDex env
    (Strategy.assemble :: r.1, r.2.1, r.2.2)
  | none =>
    let r := createPrebuiltDex env
    (Strategy.assemble :: r.1, r.2.1, r.2.2)

/-- `_create_android_manifest`: the manifest XML text rendered for the given
app name and package name. -/
def androidManifest (appName pkg : String) : String :=
  s!"<?xml version=\"1.0\" encoding=\"utf-8\"?>
<manifest xmlns:android=\"http://schemas.android.com/apk/res/android\"
    package=\"{pkg}\"
    android:versionCode=\"1\"
    android:versionName=\"1.0\">

    <uses-sdk
        android:minSdkVersion=\"16\"
        android:targetSdkVersion=\"28\" />

    <uses-permission android:name=\"android.permission.INTERNET\" />

    <application
        android:label=\"{appName}\"
        android:allowBackup=\"true\">

        <activity
            android:name=\".MainActivity\"
            android:label=\"{appName}\"
            android:exported=\"true\">
            <intent-filter>
                <action android:name=\"android.intent.action.MAIN\" />
                <category android:name=\"android.intent.category.LAUNCHER\" />
            </intent-filter>
        </activity>

    </application>
</manifest>"

/-- `_create_resources`: write the declarative inputs, then require
`android.jar`; if found, the result is whatever `aapt package` produced. -/
def createResources (env : Env) : Option (List (String × Bytes)) :=
  if env.androidJarFound then env.aaptOut else none

/-- One iteration of the resource-merge loop in `generate`:
`if name not in zf.namelist(): zf.writestr(name, res_zf.read(name))`. -/
def mergeStep (acc : Archive) (m : String × Bytes) : Archive :=
  if m.1 ∈ acc.map Prod.fst then acc else acc ++ [(m.1, Entry.bin m.2)]

/-- Step 3 of `generate`: write `classes.dex` first, then either merge every
member of the compiled resource archive that is not already present, or, when
resource compilation failed, write the raw manifest text as a member. -/
def buildArchive (dex : Bytes) (resources : Option (List (String × Bytes)))
    (manifest : String) : Archive :=
  let base : Archive := [("classes.dex", Entry.bin dex)]
  match resources with
  | some members => members.foldl mergeStep base
  | none => base ++ [("AndroidManifest.xml", Entry.txt manifest)]

/-- `_sign_apk`: delete any pre-existing keystore at the fixed per-user path,
regenerate it with `keytool` (any exception returns `False` with the store
already gone), then run `jarsigner` on the archive in place; a missing
signer / raised call returns `False`, a non-zero signer exit still returns
`True`.  Result: (returned flag, keystore exists afterwards, archive bytes
afterwards). -/
def signApk (env : Env) (keystoreExists : Bool) (apk : Archive) :
    Bool × Bool × Archive :=
  -- `keystore.unlink()` when present: from here the old identity is gone
  let ksAfterUnlink : Bool := false
  if env.keytoolOk then
    match env.jarsigner with
    | none => (false, true, apk)
    | some (_code, f) => (true, true, f apk)
  else
    (false, ksAfterUnlink, apk)

/-- `_align_apk`: run `zipalign -f 4 input output`; an exception (missing
tool, timeout) yields `False`; otherwise the result is exactly
`output_apk.exists()` — the exit code is never consulted. -/
def alignApk (env : Env) : Bool :=
  match env.zipalign with
  | none => false
  | some (_code, out) => out.isSome

/-- The outcome of one `generate` run. -/
structure GenOut where
  /-- content of the final artifact at `output_dir / appName.apk`, if any. -/
  finalApk : Option Archive
  /-- whether the debug keystore exists when the run ends. -/
  keystoreAfter : Bool
  /-- the flag `_sign_apk` returned. -/
  signOk : Bool
  /-- bytecode-acquisition strategies attempted, in order. -/
  trace : List Strategy
  /-- which strategy produced the bytecode artifact. -/
  provenance : Strategy
deriving Repr

/-- `APKGenerator.generate`: acquire bytecode, compile resources, assemble the
unsigned archive, sign it in place (failure only warns), then align into the
final path, falling back to `shutil.copy` of the pre-alignment archive when
`_align_apk` returns `False`. -/
def generate (env : Env) (appName pkg : String) (keystoreExists : Bool) : GenOut :=
  let acq := createMinimalDex env
  let dex := acq.2.2
  let resources := createResources env
  let unsigned := buildArchive dex resources (androidManifest appName pkg)
  let signed := signApk env keystoreExists unsigned
  let final : Archive :=
    match env.zipalign with
    | some (_code, some f) => f signed.2.2
    | _ => signed.2.2        -- alignment failed: shutil.copy(unsigned_apk, final_apk)
  { finalApk := some final
    keystoreAfter := signed.2.1
    signOk := signed.1
    trace := acq.1
    provenance := acq.2.1 }

/-- The package-name validation in `main`:
`all(c.isalnum() or c == '.' for c in package)` and not
`package.startswith('.') or package.endswith('.')` — for the one-character
needle `'.'`, Python's `startswith` / `endswith` test the first / last
character (and are `False` on the empty string). -/
def validatePackage (pkg : String) : Bool :=
  (pkg.data.all fun c => c.isAlphanum || c == '.')
    && !((pkg.data.head? == some '.') || (pkg.data.getLast? == some '.'))

/-- The observable outcome of `main`: the process exit code and the artifact
written at the output path, if any. -/
structure MainResult where
  exitCode : Int
  wroteArtifact : Option Archive
deriving Repr

/-- `main`: validate the package name (exit 1 before any stage on failure),
then run the generator; exit 0 when it returns an artifact, 1 otherwise. -/
def mainRun (env : Env) (appName pkg : String) (keystoreExists : Bool) : MainResult :=
  if validatePackage pkg then
    match (generate env appName pkg keystoreExists).finalApk with
    | some a => ⟨0, some a⟩
    | none => ⟨1, none⟩
  else
    ⟨1, none⟩

/-- The environment in which every external tool invocation fails: no
assembler, no apktool, no platform jar, no compiler or converter, no resource
compiler output, no key tool, no signer, no aligner. -/
def envNoTools : Env :=
  { smali := none, apktool := none, androidJarFound := false, javacOk := false
    d8 := none, dx := none, aaptOut := none, keytoolOk := false
    jarsigner := none, zipalign := none }

/-- Predicate: every external tool invocation fails in `env`. -/
def AllToolsFail (env : Env) : Prop :=
  env.smali = none ∧ env.apktool = none ∧ env.androidJarFound = false ∧
  env.javacOk = false ∧ env.d8 = none ∧ env.dx = none ∧
  env.aaptOut = none ∧ env.keytoolOk = false ∧ env.jarsigner = none ∧
  env.zipalign = none

/-- Characterization helper (spec side): the dex file, if any, that the
Assemble strategy leaves on disk — the first of the two smali invocations
that produced one. -/
def assembleYield (env : Env) : Option Bytes :=
  match env.smali with
  | none => none
  | some (some b, _) => some b
  | some (none, o2) => o2

/-- Characterization helper (spec side): the bytecode member, if any, that the
Externally-built strategy can extract from the apktool-built archive. -/
def apktoolYield (env : Env) : Option Bytes :=
  match env.apktool with
  | some (some members) => members.lookup "classes.dex"
  | _ => none

/-- The unsigned archive `generate` assembles in step 3 (content of
`unsigned.apk` before signing). -/
def unsignedArchive (env : Env) (appName pkg : String) : Archive :=
  buildArchive (createMinimalDex env).2.2 (createResources env)
    (androidManifest appName pkg)

/-- The pre-alignment archive: the content of `unsigned.apk` after the signing
step (signed in place on success, unchanged on signing failure). -/
def preAlignArchive (env : Env) (appName pkg : String) (ks : Bool) : Archive :=
  (signApk env ks (unsignedArchive env appName pkg)).2.2

/-- An environment where every strategy would succeed: the smali assembler
yields a dex on its first invocation, apktool can build, the platform jar,
javac, d8 and dx are all present and succeed. -/
def envAllTools : Env :=
  { smali := some (some [10], none)
    apktool := some (some [("classes.dex", [20])])
    androidJarFound := true, javacOk := true
    d8 := some (some [30]), dx := some (some [40])
    aaptOut := some [("AndroidManifest.xml", [50])]
    keytoolOk := true
    jarsigner := some (0, fun a => a)
    zipalign := some (0, some fun a => a) }

/-- An environment where zipalign exits with the non-zero code 1 yet still
writes an output file (here: the input with one extra leading member). -/
def envNonZeroAlign : Env :=
  { envNoTools with
    zipalign := some (1, some fun a => ("padding.bin", Entry.bin [0]) :: a) }

set_option maxRecDepth 4000 in
/-- C2: the Binary Container Builder's placeholder output is exactly 112 bytes,
begins with the fixed magic/version preamble `dex\n035\0`, and recomputing the
Adler-32 over every byte after the 4-byte checksum field at offset 8 yields
exactly the little-endian value stored in that field. -/
theorem dex_placeholder_selfconsistent :
    dexPlaceholder.length = 112 ∧
    dexPlaceholder.take 8 = [0x64, 0x65, 0x78, 0x0a, 0x30, 0x33, 0x35, 0x00] ∧
    adler32 (dexPlaceholder.drop 12) = fromLE4 ((dexPlaceholder.drop 8).take 4) := by
  refine ⟨by decide, by decide, by decide⟩

/- ### Helper lemmas about archive merging -/

/-- A key found in the left part of an appended association list is found with
the same value in the whole list. -/
theorem lookup_append_left (l₁ l₂ : Archive) (k : String) (v : Entry)
    (h : l₁.lookup k = some v) : (l₁ ++ l₂).lookup k = some v := by
  induction l₁ with
  | nil => simp [List.lookup] at h
  | cons hd tl ih =>
    obtain ⟨k', v'⟩ := hd
    simp only [List.cons_append, List.lookup_cons] at h ⊢
    cases hk : (k == k') with
    | true => simpa [hk] using h
    | false =>
      simp only [hk] at h ⊢
      exact ih h

/-- The merge loop preserves distinctness of member names. -/
theorem mergeFold_nodup (ms : List (String × Bytes)) :
    ∀ acc : Archive, (acc.map Prod.fst).Nodup →
      (((ms.foldl mergeStep acc)).map Prod.fst).Nodup := by
  induction ms with
  | nil => intro acc h; simpa using h
  | cons m tl ih =>
    intro acc h
    rw [List.foldl_cons]
    apply ih
    unfold mergeStep
    split
    · exact h
    · rename_i hc
      rw [List.map_append, List.nodup_append]
      exact ⟨h, List.nodup_singleton _, by simpa using hc⟩

/-- The merge loop never changes the value of a name already present. -/
theorem mergeFold_lookup (k : String) (v : Entry) (ms : List (String × Bytes)) :
    ∀ acc : Archive, acc.lookup k = some v →
      (ms.foldl mergeStep acc).lookup k = some v := by
  induction ms with
  | nil => intro acc h; simpa using h
  | cons m tl ih =>
    intro acc h
    rw [List.foldl_cons]
    apply ih
    unfold mergeStep
    split
    · exact h
    · exact lookup_append_left _ _ _ _ h

/- ### Claims -/

/-- C10: the package-identifier validation in `main` accepts exactly the
strings whose characters are all alphanumeric or dot and that do not start or
end with a dot; in particular the empty string and identifiers with
consecutive dots such as `"a..b"` pass, so for those inputs the process does
not exit with code 1 and the generation pipeline runs. -/
theorem validate_package_characterization :
    (∀ pkg : String, validatePackage pkg = true ↔
      ((∀ c ∈ pkg.data, c.isAlphanum = true ∨ c = '.') ∧
        pkg.data.head? ≠ some '.' ∧ pkg.data.getLast? ≠ some '.')) ∧
    validatePackage "" = true ∧ validatePackage "a..b" = true ∧
    (∀ (env : Env) (ks : Bool),
      (mainRun env "EvilDroidApp" "" ks).exitCode = 0 ∧
      (mainRun env "EvilDroidApp" "" ks).wroteArtifact ≠ none ∧
      (mainRun env "EvilDroidApp" "a..b" ks).exitCode = 0 ∧
      (mainRun env "EvilDroidApp" "a..b" ks).wroteArtifact ≠ none) := by
  refine ⟨?_, by decide, by decide, ?_⟩
  · intro pkg
    simp [validatePackage, List.all_eq_true, Bool.or_eq_true, beq_iff_eq,
      not_or]
  · intro env ks
    have h1 : validatePackage "" = true := by decide
    have h2 : validatePackage "a..b" = true := by decide
    simp [mainRun, h1, h2, generate]

/-- C10 witness: the characterization and the concrete consequences at the
empty package identifier in the no-tools environment. -/
theorem validate_package_characterization_witness :
    (validatePackage "" = true ↔
      ((∀ c ∈ ("" : String).data, c.isAlphanum = true ∨ c = '.') ∧
        ("" : String).data.head? ≠ some '.' ∧
        ("" : String).data.getLast? ≠ some '.')) ∧
    (mainRun envNoTools "EvilDroidApp" "" false).exitCode = 0 :=
  ⟨validate_package_characterization.1 "",
    (validate_package_characterization.2.2.2 envNoTools false).1⟩

/-- C3 counterexample: the package identifier `"com..app"` (an empty segment
between two dots) passes `main`'s validation — every character is alphanumeric
or a dot and it neither starts nor ends with a dot — so the process does not
exit with code 1 before the pipeline; concretely, with no tools available it
exits 0 and an artifact is written under the output directory. -/
theorem empty_segment_package_counterexample :
    validatePackage "com..app" = true ∧
    (mainRun envNoTools "EvilDroidApp" "com..app" false).exitCode = 0 ∧
    (mainRun envNoTools "EvilDroidApp" "com..app" false).wroteArtifact ≠ none := by
  refine ⟨by decide, rfl, ?_⟩
  simp [mainRun, generate, (by decide : validatePackage "com..app" = true)]

/-- C3 amended: for the package identifier `"com..app"` the validation in
`main` passes (its characters are all alphanumeric or dot, and it has no
leading or trailing dot), so the process does not exit with code 1 before any
pipeline stage: for every toolchain environment the pipeline runs, exits with
code 0 and writes an artifact under the output directory. -/
theorem empty_segment_package_amended :
    validatePackage "com..app" = true ∧
    ∀ (env : Env) (ks : Bool),
      (mainRun env "EvilDroidApp" "com..app" ks).exitCode = 0 ∧
      (mainRun env "EvilDroidApp" "com..app" ks).wroteArtifact ≠ none := by
  refine ⟨by decide, ?_⟩
  intro env ks
  simp [mainRun, generate, (by decide : validatePackage "com..app" = true)]

/-- C9: `_sign_apk` is not atomic on error — it unconditionally deletes a
pre-existing keystore at the fixed per-user path before regeneration, so when
key-pair generation fails the call returns `False`, the previously existing
signing identity is destroyed, no keystore remains on disk, and the archive is
left unmodified. -/
theorem keystore_destroyed_on_keytool_failure :
    ∀ (env : Env) (ks : Bool) (apk : Archive), ks = true →
      env.keytoolOk = false →
      signApk env ks apk = (false, false, apk) := by
  intro env ks apk _hks hk
  simp [signApk, hk]

/-- C9 witness: in the no-tools environment with a pre-existing keystore,
signing fails and the keystore is gone afterwards. -/
theorem keystore_destroyed_witness :
    (true = true ∧ envNoTools.keytoolOk = false) ∧
    signApk envNoTools true [("classes.dex", Entry.bin dexPlaceholder)]
      = (false, false, [("classes.dex", Entry.bin dexPlaceholder)]) :=
  ⟨⟨rfl, rfl⟩,
    keystore_destroyed_on_keytool_failure envNoTools true
      [("classes.dex", Entry.bin dexPlaceholder)] rfl rfl⟩

/-- C5: the Archive Assembler never emits two members with the same name, and
the bytecode member `classes.dex` — written first — keeps its bytes even when
a compiled-resource member shares its name; the same holds in the
no-resources branch that embeds the raw manifest text. -/
theorem archive_no_duplicate_members :
    ∀ (dex : Bytes) (members : List (String × Bytes)) (manifest : String),
      (((buildArchive dex (some members) manifest).map Prod.fst).Nodup ∧
        (buildArchive dex (some members) manifest).lookup "classes.dex"
          = some (Entry.bin dex)) ∧
      (((buildArchive dex none manifest).map Prod.fst).Nodup ∧
        (buildArchive dex none manifest).lookup "classes.dex"
          = some (Entry.bin dex)) := by
  intro dex members manifest
  refine ⟨⟨?_, ?_⟩, ⟨by simp [buildArchive], by simp [buildArchive, List.lookup]⟩⟩
  · exact mergeFold_nodup members [("classes.dex", Entry.bin dex)] (by simp)
  · exact mergeFold_lookup "classes.dex" (Entry.bin dex) members
      [("classes.dex", Entry.bin dex)] (by simp [List.lookup])

/-- C5 witness: a resource archive that itself carries a `classes.dex` member
does not override the bytecode member, and no name appears twice. -/
theorem archive_no_duplicate_members_witness :
    (((buildArchive [1, 2] (some [("classes.dex", [9]), ("resources.arsc", [7])])
        "m").map Prod.fst).Nodup ∧
      (buildArchive [1, 2] (some [("classes.dex", [9]), ("resources.arsc", [7])])
        "m").lookup "classes.dex" = some (Entry.bin [1, 2])) ∧
    (((buildArchive [1, 2] none "m").map Prod.fst).Nodup ∧
      (buildArchive [1, 2] none "m").lookup "classes.dex"
        = some (Entry.bin [1, 2])) :=
  archive_no_duplicate_members [1, 2] [("classes.dex", [9]), ("resources.arsc", [7])] "m"

/-- C8: signer failure is non-fatal — in every run (archive assembly, being
pure in-process zip construction, always succeeds) where `_sign_apk` returned
`False`, the pipeline still ends with exactly one artifact at the declared
output path. -/
theorem signing_failure_nonfatal :
    ∀ (env : Env) (appName pkg : String) (ks : Bool),
      (generate env appName pkg ks).signOk = false →
      ∃ a, (generate env appName pkg ks).finalApk = some a := by
  intro env appName pkg ks _h
  exact ⟨_, rfl⟩

/-- C8 witness: with no signer available, signing fails yet the artifact is
present. -/
theorem signing_failure_nonfatal_witness :
    (generate envNoTools "TestApp" "com.test.app" false).signOk = false ∧
    ∃ a, (generate envNoTools "TestApp" "com.test.app" false).finalApk = some a :=
  ⟨rfl, signing_failure_nonfatal envNoTools "TestApp" "com.test.app" false rfl⟩

/-- Helper: when `_align_apk` returns `False`, `generate` places the
pre-alignment archive, byte for byte, at the final output path. -/
theorem generate_align_fallback (env : Env) (appName pkg : String) (ks : Bool)
    (h : alignApk env = false) :
    (generate env appName pkg ks).finalApk
      = some (preAlignArchive env appName pkg ks) := by
  cases hz : env.zipalign with
  | none => simp [generate, hz, preAlignArchive, unsignedArchive]
  | some p =>
    obtain ⟨code, out⟩ := p
    cases out with
    | none => simp [generate, hz, preAlignArchive, unsignedArchive]
    | some f => simp [alignApk, hz] at h

/-- C6: alignment fallback law — whenever the aligner fails (`_align_apk`
returns `False`), the final artifact is byte-for-byte identical to the
pre-alignment archive; and if signing also failed, that archive is exactly the
unsigned assembled archive. -/
theorem alignment_fallback_byte_identical :
    ∀ (env : Env) (appName pkg : String) (ks : Bool), alignApk env = false →
      (generate env appName pkg ks).finalApk
        = some (preAlignArchive env appName pkg ks) ∧
      ((generate env appName pkg ks).signOk = false →
        preAlignArchive env appName pkg ks = unsignedArchive env appName pkg) := by
  intro env appName pkg ks h
  refine ⟨generate_align_fallback env appName pkg ks h, ?_⟩
  intro hs
  cases hk : env.keytoolOk with
  | false => simp [preAlignArchive, signApk, hk]
  | true =>
    cases hj : env.jarsigner with
    | none => simp [preAlignArchive, signApk, hk, hj]
    | some p =>
      exfalso
      obtain ⟨code, f⟩ := p
      simp [generate, signApk, hk, hj] at hs

/-- C6 witness: with no tools at all, alignment fails and the artifact equals
the (here unsigned) pre-alignment archive. -/
theorem alignment_fallback_witness :
    alignApk envNoTools = false ∧
    ((generate envNoTools "TestApp" "com.test.app" true).finalApk
        = some (preAlignArchive envNoTools "TestApp" "com.test.app" true) ∧
      ((generate envNoTools "TestApp" "com.test.app" true).signOk = false →
        preAlignArchive envNoTools "TestApp" "com.test.app" true
          = unsignedArchive envNoTools "TestApp" "com.test.app")) :=
  ⟨rfl, alignment_fallback_byte_identical envNoTools "TestApp" "com.test.app" true rfl⟩

/-- C7 counterexample: a non-zero aligner exit is not treated as failure —
when zipalign exits 1 but writes an output file, `_align_apk` reports success
and the final artifact is zipalign's output, not a fallback copy of the
pre-alignment archive. -/
theorem align_nonzero_exit_counterexample :
    envNonZeroAlign.zipalign.map Prod.fst = some 1 ∧
    alignApk envNonZeroAlign = true ∧
    (generate envNonZeroAlign "App" "a.b" false).finalApk
      ≠ some (preAlignArchive envNonZeroAlign "App" "a.b" false) := by
  refine ⟨rfl, rfl, ?_⟩
  have h : (generate envNonZeroAlign "App" "a.b" false).finalApk
      = some (("padding.bin", Entry.bin [0])
          :: preAlignArchive envNonZeroAlign "App" "a.b" false) := rfl
  rw [h]
  intro hc
  exact List.cons_ne_self _ _ (Option.some.inj hc)

/-- C7 amended: `_align_apk` reports failure exactly when the invocation left
no output file (tool missing / raised, or the output absent); on any such
failure `generate` falls back to a byte-for-byte copy of the pre-alignment
archive under the final output name.  A non-zero aligner exit alone is not
treated as failure: the exit code is never consulted, so if the aligner exits
non-zero but writes the output file the stage counts as success. -/
theorem align_failure_characterization :
    ∀ (env : Env) (appName pkg : String) (ks : Bool),
      (alignApk env = false ↔
        env.zipalign = none ∨ ∃ c : Int, env.zipalign = some (c, none)) ∧
      (alignApk env = false →
        (generate env appName pkg ks).finalApk
          = some (preAlignArchive env appName pkg ks)) := by
  intro env appName pkg ks
  constructor
  · cases hz : env.zipalign with
    | none => simp [alignApk, hz]
    | some p =>
      obtain ⟨code, out⟩ := p
      cases out with
      | none => simp [alignApk, hz]
      | some f => simp [alignApk, hz]
  · exact generate_align_fallback env appName pkg ks

/-- C7 witness: in the no-tools environment, the characterization holds and
the fallback copy is taken. -/
theorem align_failure_characterization_witness :
    (alignApk envNoTools = false ↔
      envNoTools.zipalign = none ∨
        ∃ c : Int, envNoTools.zipalign = some (c, none)) ∧
    (alignApk envNoTools = false →
      (generate envNoTools "FallbackApp" "com.fb.app" false).finalApk
        = some (preAlignArchive envNoTools "FallbackApp" "com.fb.app" false)) :=
  align_failure_characterization envNoTools "FallbackApp" "com.fb.app" false

/-- C1: if every external tool invocation fails, the pipeline still terminates
with exit code 0 and produces a non-empty output archive containing a
`classes.dex` member whose bytes are exactly the Binary Container Builder's
placeholder. -/
theorem pipeline_all_tools_fail :
    ∀ (env : Env) (appName pkg : String) (ks : Bool), AllToolsFail env →
      validatePackage pkg = true →
      (mainRun env appName pkg ks).exitCode = 0 ∧
      ∃ a, (mainRun env appName pkg ks).wroteArtifact = some a ∧
        a ≠ [] ∧ a.lookup "classes.dex" = some (Entry.bin dexPlaceholder) := by
  intro env appName pkg ks hall hv
  obtain ⟨h1, h2, h3, _h4, _h5, _h6, h7, h8, h9, h10⟩ := hall
  have hgen : (generate env appName pkg ks).finalApk
      = some [("classes.dex", Entry.bin dexPlaceholder),
              ("AndroidManifest.xml", Entry.txt (androidManifest appName pkg))] := by
    simp [generate, createMinimalDex, createPrebuiltDex, createResources,
      buildArchive, signApk, h1, h2, h3, h7, h8, h9, h10]
  refine ⟨?_, ?_⟩
  · simp [mainRun, hv, hgen]
  · refine ⟨[("classes.dex", Entry.bin dexPlaceholder),
        ("AndroidManifest.xml", Entry.txt (androidManifest appName pkg))],
      ?_, ?_, ?_⟩
    · simp [mainRun, hv, hgen]
    · simp
    · simp [List.lookup]

/-- C1 witness: the concrete no-tools environment with the default package. -/
theorem pipeline_all_tools_fail_witness :
    (AllToolsFail envNoTools ∧ validatePackage "com.evildroid.app" = true) ∧
    ((mainRun envNoTools "EvilDroidApp" "com.evildroid.app" false).exitCode = 0 ∧
      ∃ a, (mainRun envNoTools "EvilDroidApp" "com.evildroid.app" false).wroteArtifact
          = some a ∧
        a ≠ [] ∧ a.lookup "classes.dex" = some (Entry.bin dexPlaceholder)) :=
  ⟨⟨⟨rfl, rfl, rfl, rfl, rfl, rfl, rfl, rfl, rfl, rfl⟩, by decide⟩,
    pipeline_all_tools_fail envNoTools "EvilDroidApp" "com.evildroid.app" false
      ⟨rfl, rfl, rfl, rfl, rfl, rfl, rfl, rfl, rfl, rfl⟩ (by decide)⟩

/-- C4 counterexample: in an environment where the Compile strategy would
succeed (platform jar present, `javac` succeeds, `d8` leaves a dex), the
pipeline still never attempts it — `_compile_java_to_dex` is defined but never
invoked by `generate`, whose bytecode acquisition starts with the Assemble
strategy. -/
theorem compile_never_attempted_counterexample :
    compileJavaToDex envAllTools = some [30] ∧
    Strategy.compile ∉ (generate envAllTools "App" "a.b" false).trace ∧
    (generate envAllTools "App" "a.b" false).trace.head?
      ≠ some Strategy.compile := by
  refine ⟨rfl, by decide, by decide⟩

/-- C4 amended: bytecode acquisition is a linear cascade in which the Assemble
strategy is attempted first and each later strategy (Externally-built,
Placeholder) is attempted only if the previous yields no file; the Compile
strategy is never attempted, even when it would succeed. -/
theorem acquisition_cascade :
    ∀ env : Env,
      Strategy.compile ∉ (createMinimalDex env).1 ∧
      (createMinimalDex env).1.head? = some Strategy.assemble ∧
      (Strategy.externallyBuilt ∈ (createMinimalDex env).1 ↔
        assembleYield env = none) ∧
      (Strategy.placeholder ∈ (createMinimalDex env).1 ↔
        assembleYield env = none ∧ apktoolYield env = none) ∧
      (∀ b, assembleYield env = some b →
        createMinimalDex env = ([Strategy.assemble], Strategy.assemble, b)) ∧
      (∀ b, assembleYield env = none → apktoolYield env = some b →
        createMinimalDex env = ([Strategy.assemble, Strategy.externallyBuilt],
          Strategy.externallyBuilt, b)) ∧
      (assembleYield env = none → apktoolYield env = none →
        createMinimalDex env
          = ([Strategy.assemble, Strategy.externallyBuilt, Strategy.placeholder],
            Strategy.placeholder, dexPlaceholder)) := by
  intro env
  rcases hs : env.smali with _ | ⟨o1, o2⟩
  · rcases ha : env.apktool with _ | ma
    · simp [createMinimalDex, createPrebuiltDex, assembleYield, apktoolYield, hs, ha]
    · rcases ma with _ | members
      · simp [createMinimalDex, createPrebuiltDex, assembleYield, apktoolYield, hs, ha]
      · rcases hl : members.lookup "classes.dex" with _ | b
        · simp [createMinimalDex, createPrebuiltDex, assembleYield, apktoolYield,
            hs, ha, hl]
        · simp [createMinimalDex, createPrebuiltDex, assembleYield, apktoolYield,
            hs, ha, hl]
  · rcases o1 with _ | b1
    · rcases o2 with _ | b2
      · rcases ha : env.apktool with _ | ma
        · simp [createMinimalDex, createPrebuiltDex, assembleYield, apktoolYield, hs, ha]
        · rcases ma with _ | members
          · simp [createMinimalDex, createPrebuiltDex, assembleYield, apktoolYield,
              hs, ha]
          · rcases hl : members.lookup "classes.dex" with _ | b
            · simp [createMinimalDex, createPrebuiltDex, assembleYield, apktoolYield,
                hs, ha, hl]
            · simp [createMinimalDex, createPrebuiltDex, assembleYield, apktoolYield,
                hs, ha, hl]
      · simp [createMinimalDex, assembleYield, apktoolYield, hs]
    · simp [createMinimalDex, assembleYield, apktoolYield, hs]

/-- C4 witness: the cascade facts instantiated in the environment where every
strategy would succeed: the Assemble strategy yields the dex and is the only
one attempted. -/
theorem acquisition_cascade_witness :
    Strategy.compile ∉ (createMinimalDex envAllTools).1 ∧
    (createMinimalDex envAllTools).1.head? = some Strategy.assemble ∧
    assembleYield envAllTools = some [10] ∧
    createMinimalDex envAllTools
      = ([Strategy.assemble], Strategy.assemble, [10]) :=
  ⟨(acquisition_cascade envAllTools).1, (acquisition_cascade envAllTools).2.1,
    rfl, (acquisition_cascade envAllTools).2.2.2.2.1 [10] rfl⟩
